import Mathlib

/-!
Session API of `src/eos/eos_api.cpp`.

A shallow embedding of the request handlers and completion callbacks of
`eos_api.cpp`. The process-wide handles are an explicit `Globals` record, the
two output streams are one list of `LogLine`s, and the backend SDK is a test
double: its fallible entry points are functions in `Sdk`, and every call the
program makes to it is appended to a trace of `SdkCall`s.
-/

set_option autoImplicit false

namespace Eos

/-! ## Collaborators that live outside `eos_api.cpp` -/

/-- Modelled from the spec: the result-code enumeration `EOS_EResult` of the SDK header
`eos_common.h`, which is not part of the sources. The program tests four of its
values by name; `EOS_Other` stands for every remaining code. -/
inductive EOS_EResult
  | EOS_Success
  | EOS_NotFound
  | EOS_Sessions_OutOfSync
  | EOS_InvalidParameters
  | EOS_Other (code : Nat)
  deriving DecidableEq, Repr

/-- Opaque SDK handles (`EOS_HSessions`, `EOS_HPlatform`, `EOS_HSessionModification`)
are pointers; `0` is `nullptr`. -/
abbrev Handle := Nat

/-- The null pointer. -/
def nullptr : Handle := 0

/-- The C string read from `s.c_str()` by a consumer of `const char*`: the characters
before the first NUL character. -/
def c_str (s : String) : String :=
  String.mk (s.data.takeWhile (fun c => c != Char.ofNat 0))

/-- Fields of `EOS_Sessions_CreateSessionModificationOptions` that `CreateSession`
assigns (the others stay zero). -/
structure EOS_Sessions_CreateSessionModificationOptions where
  ApiVersion : Nat
  SessionName : String
  BucketId : String
  MaxPlayers : Nat
  deriving DecidableEq, Repr

/-- `EOS_SessionModification_SetBucketIdOptions`. -/
structure EOS_SessionModification_SetBucketIdOptions where
  ApiVersion : Nat
  BucketId : String
  deriving DecidableEq, Repr

/-- `EOS_Sessions_UpdateSessionOptions`. -/
structure EOS_Sessions_UpdateSessionOptions where
  ApiVersion : Nat
  SessionModificationHandle : Handle
  deriving DecidableEq, Repr

/-- `EOS_Sessions_DestroySessionOptions`. -/
structure EOS_Sessions_DestroySessionOptions where
  ApiVersion : Nat
  SessionName : String
  deriving DecidableEq, Repr

/-- `EOS_Sessions_StartSessionOptions`. -/
structure EOS_Sessions_StartSessionOptions where
  ApiVersion : Nat
  SessionName : String
  deriving DecidableEq, Repr

/-- The three completion callbacks the program hands to the SDK. -/
inductive Callback
  | EOS_CreateSessionCompleteCallback
  | DestroySessionCallback
  | StartSessionCallback
  deriving DecidableEq, Repr

/-- One call received by the backend double, with its arguments and, for the two
synchronous fallible calls, what the double answered. -/
inductive SdkCall
  | CreateSessionModification (sessions : Handle)
      (options : EOS_Sessions_CreateSessionModificationOptions)
      (result : EOS_EResult) (outHandle : Handle)
  | SetBucketId (handle : Handle) (options : EOS_SessionModification_SetBucketIdOptions)
      (result : EOS_EResult)
  | Release (handle : Handle)
  | UpdateSession (sessions : Handle) (options : EOS_Sessions_UpdateSessionOptions)
      (clientData : Handle) (completion : Callback)
  | DestroySession (sessions : Handle) (options : EOS_Sessions_DestroySessionOptions)
      (clientData : Handle) (completion : Callback)
  | StartSession (sessions : Handle) (options : EOS_Sessions_StartSessionOptions)
      (clientData : Handle) (completion : Callback)
  deriving DecidableEq, Repr

/-- The backend double: the SDK constants and the behaviour of the SDK functions
whose results the program reads. -/
structure Sdk where
  EOS_SESSIONS_CREATESESSIONMODIFICATION_API_LATEST : Nat
  EOS_SESSIONMODIFICATION_SETBUCKETID_API_LATEST : Nat
  EOS_SESSIONS_UPDATESESSION_API_LATEST : Nat
  EOS_SESSIONS_DESTROYSESSION_API_LATEST : Nat
  EOS_SESSIONS_STARTSESSION_API_LATEST : Nat
  EOS_EResult_ToString : EOS_EResult → String
  EOS_Sessions_CreateSessionModification :
    Handle → EOS_Sessions_CreateSessionModificationOptions → EOS_EResult × Handle
  EOS_SessionModification_SetBucketId :
    Handle → EOS_SessionModification_SetBucketIdOptions → EOS_EResult

/-- A parsed `boost::json::value`. -/
inductive JsonValue
  | null
  | bool (b : Bool)
  | number (n : Int)
  | string (s : String)
  | array (xs : List JsonValue)
  | object (members : List (String × JsonValue))

/-- The exceptions `MatchPlayers` can catch from its accesses to the parsed body. -/
inductive JsonError
  | not_an_object
  | out_of_range
  | not_a_string
  deriving DecidableEq, Repr

/-- The JSON library: `json::parse` (an error carries the exception's `what()`),
`json::serialize`, and the `what()` of the access exceptions. -/
structure JsonLib where
  parse : String → Except String JsonValue
  serialize : JsonValue → String
  what : JsonError → String

/-- `value::at(key)`: the member of an object with that key; throws on a value that is
not an object and on a missing key. -/
def JsonValue.at_ (v : JsonValue) (key : String) : Except JsonError JsonValue :=
  match v with
  | .object members =>
    match members.lookup key with
    | some x => .ok x
    | none => .error .out_of_range
  | _ => .error .not_an_object

/-- `value::as_string()`: throws on a value that is not a string. -/
def JsonValue.as_string (v : JsonValue) : Except JsonError String :=
  match v with
  | .string s => .ok s
  | _ => .error .not_a_string

/-! ## Program state and output -/

/-- The global handles of the program (lines 26-29). -/
structure Globals where
  SessionHandle : Handle
  PlatformHandle : Handle
  GlobalSessionSearchHandle : Handle
  deriving DecidableEq, Repr

/-- The two output streams. -/
inductive Stream
  | cout
  | cerr
  deriving DecidableEq, Repr

/-- One line written with `<< endl`. -/
structure LogLine where
  stream : Stream
  text : String
  deriving DecidableEq, Repr

/-- Everything a handler or callback can read or affect: the globals, the lines
written so far and the calls the backend double has received so far. -/
structure World where
  globals : Globals
  out : List LogLine
  calls : List SdkCall
  deriving DecidableEq, Repr

/-- `cout << text << endl`. -/
def World.cout (w : World) (text : String) : World :=
  World.mk w.globals (w.out ++ [LogLine.mk Stream.cout text]) w.calls

/-- `cerr << text << endl`. -/
def World.cerr (w : World) (text : String) : World :=
  World.mk w.globals (w.out ++ [LogLine.mk Stream.cerr text]) w.calls

/-- The backend double records a call. -/
def World.call (w : World) (c : SdkCall) : World :=
  World.mk w.globals w.out (w.calls ++ [c])

/-- A `crow::response`: status code and body. -/
structure response where
  code : Nat
  body : String
  deriving DecidableEq, Repr

/-- A `crow::request`, of which only the body is read. -/
structure request where
  body : String
  deriving DecidableEq, Repr

/-- The data a completion callback receives (`Data->ResultCode`); a null `Data` is
`none`. -/
structure CallbackInfo where
  ResultCode : EOS_EResult
  deriving DecidableEq, Repr

/-! ## The program -/

/-- `EOS_CreateSessionCompleteCallback` (lines 115-132). -/
def EOS_CreateSessionCompleteCallback (sdk : Sdk) (Data : Option CallbackInfo)
    (w : World) : World :=
  let w := w.cout "🔔 EOS_CreateSessionCompleteCallback has been triggered!"
  match Data with
  | none => w.cout "❌ ERROR: Callback received NULL data!"
  | some Data =>
    let w := w.cout ("📡 Callback Result: " ++ sdk.EOS_EResult_ToString Data.ResultCode)
    if Data.ResultCode = EOS_EResult.EOS_Success then
      w.cout "✅ Session successfully created/updated!"
    else if Data.ResultCode = EOS_EResult.EOS_Sessions_OutOfSync then
      w.cout "⚠️ WARNING: Session is out of sync and will be updated later!"
    else
      w.cout ("❌ ERROR: Session creation/update failed! Error: "
        ++ sdk.EOS_EResult_ToString Data.ResultCode)

/-- The local `CreateOptions` of `CreateSession` (lines 140-144). -/
def CreateSession.CreateOptions (sdk : Sdk) (sessionName : String) :
    EOS_Sessions_CreateSessionModificationOptions :=
  EOS_Sessions_CreateSessionModificationOptions.mk
    sdk.EOS_SESSIONS_CREATESESSIONMODIFICATION_API_LATEST
    (c_str sessionName) "sbmm_default_bucket" 2

/-- The local `BucketOptions` of `CreateSession` (lines 157-159). -/
def CreateSession.BucketOptions (sdk : Sdk) : EOS_SessionModification_SetBucketIdOptions :=
  EOS_SessionModification_SetBucketIdOptions.mk
    sdk.EOS_SESSIONMODIFICATION_SETBUCKETID_API_LATEST "default_bucket"

/-- The local `UpdateOptions` of `CreateSession` (lines 170-172). -/
def CreateSession.UpdateOptions (sdk : Sdk) (SessionModificationHandle : Handle) :
    EOS_Sessions_UpdateSessionOptions :=
  EOS_Sessions_UpdateSessionOptions.mk
    sdk.EOS_SESSIONS_UPDATESESSION_API_LATEST SessionModificationHandle

/-- `CreateSession` (lines 134-179): the returned string and the world afterwards. -/
def CreateSession (sdk : Sdk) (sessionName : String) (w : World) : String × World :=
  if w.globals.SessionHandle = nullptr then
    ("", w.cerr "❌ ERROR: SessionHandle is NULL! EOS SDK may not be initialized.")
  else
    let CreateOptions := CreateSession.CreateOptions sdk sessionName
    let created :=
      sdk.EOS_Sessions_CreateSessionModification w.globals.SessionHandle CreateOptions
    let Result := created.1
    -- the out-parameter, read only after a success
    let SessionModificationHandle := created.2
    let w := w.call
      (SdkCall.CreateSessionModification w.globals.SessionHandle CreateOptions
        Result SessionModificationHandle)
    if Result ≠ EOS_EResult.EOS_Success then
      ("", w.cerr ("❌ ERROR: Failed to create session modification. Error: "
        ++ sdk.EOS_EResult_ToString Result))
    else
      let w := w.cout ("✅ Session modification handle created for: " ++ sessionName)
      let BucketOptions := CreateSession.BucketOptions sdk
      let Result := sdk.EOS_SessionModification_SetBucketId SessionModificationHandle
        BucketOptions
      let w := w.call (SdkCall.SetBucketId SessionModificationHandle BucketOptions Result)
      if Result ≠ EOS_EResult.EOS_Success then
        let w := w.cerr ("❌ ERROR: Failed to set bucket ID! Error: "
          ++ sdk.EOS_EResult_ToString Result)
        let w := w.call (SdkCall.Release SessionModificationHandle)
        ("", w)
      else
        let w := w.cout ("✅ Bucket ID set successfully for session: " ++ sessionName)
        let UpdateOptions := CreateSession.UpdateOptions sdk SessionModificationHandle
        let w := w.call
          (SdkCall.UpdateSession w.globals.SessionHandle UpdateOptions nullptr
            Callback.EOS_CreateSessionCompleteCallback)
        let w := w.cout "✅ Session update request sent."
        (sessionName, w)

/-- The session name `MatchPlayers` derives on line 193 from its two local strings. -/
def sessionNameOf (player1 player2 : String) : String :=
  "match_" ++ player1 ++ "_" ++ player2

/-- The `try` block of `MatchPlayers` up to line 193: parse the body and extract the
two player ids, or the `what()` of the exception thrown. -/
def extractPlayers (js : JsonLib) (req : request) : Except String (String × String) :=
  match js.parse req.body with
  | .error e => .error e
  | .ok body =>
    match (body.at_ "player1").bind JsonValue.as_string with
    | .error e => .error (js.what e)
    | .ok s1 =>
      let player1 := c_str s1
      match (body.at_ "player2").bind JsonValue.as_string with
      | .error e => .error (js.what e)
      | .ok s2 =>
        let player2 := c_str s2
        .ok (player1, player2)

/-- `MatchPlayers` (lines 182-210), the handler of POST /matchmaking. -/
def MatchPlayers (sdk : Sdk) (js : JsonLib) (req : request) (w : World) : response × World :=
  match extractPlayers js req with
  | .error e =>
    let w := w.cerr ("❌ Exception: " ++ e)
    (response.mk 400 "Invalid request format", w)
  | .ok (player1, player2) =>
    let sessionName := sessionNameOf player1 player2
    let created := CreateSession sdk sessionName w
    let createdSession := created.1
    let w := created.2
    if createdSession ≠ "" then
      let res := JsonValue.object
        [("session_id", JsonValue.string createdSession), ("status", JsonValue.string "created")]
      (response.mk 200 (js.serialize res), w)
    else
      (response.mk 500 "Failed to create session", w)

/-- `DestroySessionCallback` (lines 212-223); the failure message is commented out in
the source. -/
def DestroySessionCallback (Data : Option CallbackInfo) (w : World) : World :=
  match Data with
  | none => w.cout "❌ ERROR: DestroySession callback received NULL data!"
  | some Data =>
    if Data.ResultCode = EOS_EResult.EOS_Success then
      w.cout "✅ Session destroyed successfully!"
    else
      w

/-- `DestroySession` (lines 225-239). -/
def DestroySession (sdk : Sdk) (sessionId : String) (w : World) : Bool × World :=
  if w.globals.SessionHandle = nullptr then
    (false, w.cerr "❌ ERROR: SessionHandle is NULL! EOS SDK may not be initialized.")
  else
    let DestroyOptions : EOS_Sessions_DestroySessionOptions :=
      EOS_Sessions_DestroySessionOptions.mk
        sdk.EOS_SESSIONS_DESTROYSESSION_API_LATEST (c_str sessionId)
    let w := w.call
      (SdkCall.DestroySession w.globals.SessionHandle DestroyOptions nullptr
        Callback.DestroySessionCallback)
    let w := w.cout ("🛑 Destroy session request sent for: " ++ sessionId)
    (true, w)

/-- `StartSessionCallback` (lines 241-267); the not-found message is commented out in
the source. -/
def StartSessionCallback (sdk : Sdk) (Data : Option CallbackInfo) (w : World) : World :=
  match Data with
  | none => w.cerr "❌ ERROR: StartSession callback received NULL data!"
  | some Data =>
    let w := w.cout "🔔 StartSession Callback Triggered!"
    let w := w.cout ("📡 Callback Result: " ++ sdk.EOS_EResult_ToString Data.ResultCode)
    match Data.ResultCode with
    | EOS_EResult.EOS_Success => w.cout "✅ Session successfully started!"
    | EOS_EResult.EOS_NotFound => w
    | EOS_EResult.EOS_Sessions_OutOfSync =>
      w.cerr "⚠️ WARNING: Session is out of sync. Will update on next backend connection!"
    | EOS_EResult.EOS_InvalidParameters => w.cerr "❌ ERROR: Invalid session parameters!"
    | EOS_EResult.EOS_Other code =>
      w.cerr ("❌ ERROR: Failed to start session! Error: "
        ++ sdk.EOS_EResult_ToString (EOS_EResult.EOS_Other code))

/-- `StartEOSSession` (lines 269-282); its first parameter shadows the global. -/
def StartEOSSession (sdk : Sdk) (SessionHandle : Handle) (sessionName : String)
    (w : World) : World :=
  if SessionHandle = nullptr then
    w.cerr "❌ ERROR: SessionHandle is NULL!"
  else
    let StartOptions : EOS_Sessions_StartSessionOptions :=
      EOS_Sessions_StartSessionOptions.mk
        sdk.EOS_SESSIONS_STARTSESSION_API_LATEST (c_str sessionName)
    let w := w.cout ("🎮 Requesting to start session: " ++ sessionName)
    w.call
      (SdkCall.StartSession SessionHandle StartOptions nullptr Callback.StartSessionCallback)

/-- The handler `main` registers for DELETE /session/<string> (lines 296-308). -/
def DeleteSessionRoute (sdk : Sdk) (js : JsonLib) (sessionId : String) (w : World) :
    response × World :=
  let w := w.cout ("🛑 Destroying session: " ++ sessionId)
  let destroyed := DestroySession sdk sessionId w
  let success := destroyed.1
  let w := destroyed.2
  if success then
    let res := JsonValue.object
      [("session_id", JsonValue.string sessionId), ("status", JsonValue.string "destroyed")]
    (response.mk 200 (js.serialize res), w)
  else
    (response.mk 500 "Failed to destroy session", w)

/-- The handler `main` registers for POST /session/start/<string> (lines 309-325). -/
def StartSessionRoute (sdk : Sdk) (js : JsonLib) (sessionId : String) (w : World) :
    response × World :=
  let w := w.cout ("🎮 Starting session: " ++ sessionId)
  if w.globals.SessionHandle = nullptr then
    let w := w.cerr "❌ ERROR: SessionHandle is NULL!"
    (response.mk 500 "SessionHandle is NULL", w)
  else
    let w := StartEOSSession sdk w.globals.SessionHandle sessionId w
    let res := JsonValue.object
      [("session_id", JsonValue.string sessionId), ("status", JsonValue.string "started")]
    (response.mk 200 (js.serialize res), w)

/-! ## Observations made by the test double -/

/-- The calls the backend double received between two worlds. -/
def callsMade (before after : World) : List SdkCall :=
  after.calls.drop before.calls.length

/-- The lines written between two worlds. -/
def linesWritten (before after : World) : List LogLine :=
  after.out.drop before.out.length

/-- A call that hands a modification handle to the program: a handle request the
double answered with success. -/
def SdkCall.isAcquire : SdkCall → Bool
  | SdkCall.CreateSessionModification _ _ result _ => result == EOS_EResult.EOS_Success
  | _ => false

/-- A release of a modification handle. -/
def SdkCall.isRelease : SdkCall → Bool
  | SdkCall.Release _ => true
  | _ => false

/-- A commit/update call. -/
def SdkCall.isUpdate : SdkCall → Bool
  | SdkCall.UpdateSession _ _ _ _ => true
  | _ => false

/-- Number of handles acquired in a trace. -/
def acquired (calls : List SdkCall) : Nat := calls.countP SdkCall.isAcquire

/-- Number of release calls in a trace. -/
def released (calls : List SdkCall) : Nat := calls.countP SdkCall.isRelease

/-- Number of commit/update calls in a trace. -/
def committed (calls : List SdkCall) : Nat := calls.countP SdkCall.isUpdate

/-- What the double answers to the handle request of `CreateSession sdk sessionName w`:
the result code and the out-handle. -/
def createAnswer (sdk : Sdk) (sessionName : String) (w : World) : EOS_EResult × Handle :=
  sdk.EOS_Sessions_CreateSessionModification w.globals.SessionHandle
    (CreateSession.CreateOptions sdk sessionName)

/-- What the double answers to the bucket-set call of `CreateSession sdk sessionName w`. -/
def bucketAnswer (sdk : Sdk) (sessionName : String) (w : World) : EOS_EResult :=
  sdk.EOS_SessionModification_SetBucketId (createAnswer sdk sessionName w).2
    (CreateSession.BucketOptions sdk)

/-- A printable name for each result code, used by the concrete doubles. -/
def resultName : EOS_EResult → String
  | EOS_EResult.EOS_Success => "EOS_Success"
  | EOS_EResult.EOS_NotFound => "EOS_NotFound"
  | EOS_EResult.EOS_Sessions_OutOfSync => "EOS_Sessions_OutOfSync"
  | EOS_EResult.EOS_InvalidParameters => "EOS_InvalidParameters"
  | EOS_EResult.EOS_Other _ => "EOS_UnexpectedError"

/-- A backend double that answers the handle request with `create` and handle `7`,
and the bucket-set call with `bucket`. -/
def sdkDouble (create bucket : EOS_EResult) : Sdk :=
  Sdk.mk 1 1 1 1 1 resultName (fun _ _ => (create, 7)) (fun _ _ => bucket)

/-- The double that accepts every call. -/
def sdkAccept : Sdk := sdkDouble EOS_EResult.EOS_Success EOS_EResult.EOS_Success

/-- Whether `value::at(key)` yields a string on `v`. -/
def hasStringField (v : JsonValue) (key : String) : Bool :=
  match v.at_ key with
  | .ok (JsonValue.string _) => true
  | _ => false

/-- A malformed request body: it does not parse as JSON, or the parsed value lacks the
field `player1` or `player2`, or has a value that is not a string for either. -/
def malformed (js : JsonLib) (req : request) : Bool :=
  match js.parse req.body with
  | .error _ => true
  | .ok body => !(hasStringField body "player1") || !(hasStringField body "player2")

/-- A serializer for the concrete doubles: exact on objects of two string members, which
is the shape of every response the handlers build. -/
def serializeDouble : JsonValue → String
  | JsonValue.object [(k1, JsonValue.string v1), (k2, JsonValue.string v2)] =>
    "\x7b\"" ++ k1 ++ "\":\"" ++ v1 ++ "\",\"" ++ k2 ++ "\":\"" ++ v2 ++ "\"\x7d"
  | _ => "null"

/-- A JSON library double that parses exactly one body, `text`, to the value `v`. -/
def jsDouble (text : String) (v : JsonValue) : JsonLib :=
  JsonLib.mk (fun s => if s = text then .ok v else .error "syntax error")
    serializeDouble (fun _ => "json access error")

/-- A player id with an embedded NUL character: `a`, NUL, `b`. -/
def idWithNul : String := String.mk [Char.ofNat 97, Char.ofNat 0, Char.ofNat 98]

/-- The request body `{"player1":"a\u0000b","player2":"c"}`. -/
def bodyWithNul : String := "\x7b\"player1\":\"a\\u0000b\",\"player2\":\"c\"\x7d"

/-- The JSON library on `bodyWithNul`: the escape `\u0000` denotes the NUL character. -/
def jsWithNul : JsonLib :=
  jsDouble bodyWithNul
    (JsonValue.object [("player1", JsonValue.string idWithNul), ("player2", JsonValue.string "c")])

/-- The request body `{"player1":"p1"}`, which lacks `player2`. -/
def bodyMissingField : String := "\x7b\"player1\":\"p1\"\x7d"

/-- The JSON library on `bodyMissingField`. -/
def jsMissingField : JsonLib :=
  jsDouble bodyMissingField (JsonValue.object [("player1", JsonValue.string "p1")])

/-- The request body `{"player1":"p1","player2":"p2"}`. -/
def bodyTwoPlayers : String := "\x7b\"player1\":\"p1\",\"player2\":\"p2\"\x7d"

/-- The JSON library on `bodyTwoPlayers`. -/
def jsTwoPlayers : JsonLib :=
  jsDouble bodyTwoPlayers
    (JsonValue.object [("player1", JsonValue.string "p1"), ("player2", JsonValue.string "p2")])

/-- Modelled from the spec: the lifecycle states of a session record (section 3 of the
specification). The program declares no such type; it is used only to state what a
query of session state would have to return. -/
inductive LifecycleState
  | Created
  | Configuring
  | PendingCommit
  | Active
  | PendingDestroy
  | Destroyed
  | Failed (reason : EOS_EResult)
  deriving DecidableEq, Repr

/-- One thing that can happen to a session id on the destroy path: a DELETE request for
it, or the delivery of a destroy completion. -/
inductive DestroyStep
  | request
  | completion (Data : Option CallbackInfo)
  deriving DecidableEq, Repr

/-- Run a sequence of destroy steps for `sessionId`, in order. -/
def runDestroy (sdk : Sdk) (js : JsonLib) (sessionId : String) :
    List DestroyStep → World → World
  | [], w => w
  | DestroyStep.request :: rest, w =>
    runDestroy sdk js sessionId rest (DeleteSessionRoute sdk js sessionId w).2
  | DestroyStep.completion Data :: rest, w =>
    runDestroy sdk js sessionId rest (DestroySessionCallback Data w)

/-- A world after start-up: the sessions interface is handle `1`, the platform handle
`2`, nothing written and no call received. -/
def world0 : World := World.mk (Globals.mk 1 2 0) [] []

/-- A world in which the sessions interface was never obtained. -/
def worldNull : World := World.mk (Globals.mk 0 0 0) [] []

end Eos

/-! ## Theorems -/

namespace Eos

/-! ### Bookkeeping of worlds -/

theorem callsMade_of_calls_eq (w w1 : World) (t : List SdkCall)
    (h : w1.calls = w.calls ++ t) : callsMade w w1 = t := by
  simp [callsMade, h]

theorem linesWritten_of_out_eq (w w1 : World) (t : List LogLine)
    (h : w1.out = w.out ++ t) : linesWritten w w1 = t := by
  simp [linesWritten, h]

/-! ### `CreateSession`, path by path -/

theorem CreateSession_null (sdk : Sdk) (sessionName : String) (w : World)
    (h : w.globals.SessionHandle = nullptr) :
    CreateSession sdk sessionName w =
      ("", w.cerr "❌ ERROR: SessionHandle is NULL! EOS SDK may not be initialized.") := by
  simp [CreateSession, h]

theorem CreateSession_rejected (sdk : Sdk) (sessionName : String) (w : World)
    (h : w.globals.SessionHandle ≠ nullptr)
    (hc : (createAnswer sdk sessionName w).1 ≠ EOS_EResult.EOS_Success) :
    (CreateSession sdk sessionName w).1 = "" ∧
    (CreateSession sdk sessionName w).2.globals = w.globals ∧
    (CreateSession sdk sessionName w).2.calls = w.calls ++
      [SdkCall.CreateSessionModification w.globals.SessionHandle
        (CreateSession.CreateOptions sdk sessionName)
        (createAnswer sdk sessionName w).1 (createAnswer sdk sessionName w).2] := by
  unfold createAnswer at hc
  simp [CreateSession, h, hc, createAnswer, World.call, World.cerr]

theorem CreateSession_bucket_failed (sdk : Sdk) (sessionName : String) (w : World)
    (h : w.globals.SessionHandle ≠ nullptr)
    (hc : (createAnswer sdk sessionName w).1 = EOS_EResult.EOS_Success)
    (hb : bucketAnswer sdk sessionName w ≠ EOS_EResult.EOS_Success) :
    (CreateSession sdk sessionName w).1 = "" ∧
    (CreateSession sdk sessionName w).2.globals = w.globals ∧
    (CreateSession sdk sessionName w).2.calls = w.calls ++
      [SdkCall.CreateSessionModification w.globals.SessionHandle
        (CreateSession.CreateOptions sdk sessionName)
        EOS_EResult.EOS_Success (createAnswer sdk sessionName w).2,
       SdkCall.SetBucketId (createAnswer sdk sessionName w).2
        (CreateSession.BucketOptions sdk) (bucketAnswer sdk sessionName w),
       SdkCall.Release (createAnswer sdk sessionName w).2] := by
  unfold bucketAnswer at hb
  unfold createAnswer at hc hb
  simp [CreateSession, h, hc, hb, createAnswer, bucketAnswer, World.call, World.cerr,
    World.cout]

theorem CreateSession_accepted (sdk : Sdk) (sessionName : String) (w : World)
    (h : w.globals.SessionHandle ≠ nullptr)
    (hc : (createAnswer sdk sessionName w).1 = EOS_EResult.EOS_Success)
    (hb : bucketAnswer sdk sessionName w = EOS_EResult.EOS_Success) :
    (CreateSession sdk sessionName w).1 = sessionName ∧
    (CreateSession sdk sessionName w).2.globals = w.globals ∧
    (CreateSession sdk sessionName w).2.calls = w.calls ++
      [SdkCall.CreateSessionModification w.globals.SessionHandle
        (CreateSession.CreateOptions sdk sessionName)
        EOS_EResult.EOS_Success (createAnswer sdk sessionName w).2,
       SdkCall.SetBucketId (createAnswer sdk sessionName w).2
        (CreateSession.BucketOptions sdk) EOS_EResult.EOS_Success,
       SdkCall.UpdateSession w.globals.SessionHandle
        (CreateSession.UpdateOptions sdk (createAnswer sdk sessionName w).2)
        nullptr Callback.EOS_CreateSessionCompleteCallback] := by
  unfold bucketAnswer at hb
  unfold createAnswer at hc hb
  simp [CreateSession, h, hc, hb, createAnswer, bucketAnswer, World.call, World.cerr,
    World.cout]

/-! ### Handle accounting of `CreateSession` -/

/-- C1, counterexample. With the empty session name and a backend that accepts every
call, `CreateSession` returns the empty string, which is the error value, although it
took the success path: one handle was acquired, none released, and one commit/update
call was issued. -/
theorem CreateSession_empty_name_returns_error_value_after_commit :
    ((CreateSession sdkAccept "" world0).1 = "" ∧
      acquired (callsMade world0 (CreateSession sdkAccept "" world0).2) = 1 ∧
      released (callsMade world0 (CreateSession sdkAccept "" world0).2) = 0 ∧
      committed (callsMade world0 (CreateSession sdkAccept "" world0).2) = 1) ∧
    ¬ ((CreateSession sdkAccept "" world0).1 = "" →
        released (callsMade world0 (CreateSession sdkAccept "" world0).2) =
          acquired (callsMade world0 (CreateSession sdkAccept "" world0).2) ∧
        committed (callsMade world0 (CreateSession sdkAccept "" world0).2) = 0) := by
  decide

/-- C1, amended. For every non-empty session name and every backend behaviour, whenever
`CreateSession` returns the error value, the number of release calls equals the number
of handles acquired and no commit/update call is issued: nothing is acquired or
released (indeed no call at all is made) when the sessions interface is null, nothing
is acquired or released when the handle request is rejected, and the one acquired
handle is released exactly once when the bucket-set call fails. -/
theorem CreateSession_error_releases_what_it_acquired (sdk : Sdk) (sessionName : String)
    (w : World) (hname : sessionName ≠ "")
    (herr : (CreateSession sdk sessionName w).1 = "") :
    released (callsMade w (CreateSession sdk sessionName w).2) =
      acquired (callsMade w (CreateSession sdk sessionName w).2) ∧
    committed (callsMade w (CreateSession sdk sessionName w).2) = 0 ∧
    (w.globals.SessionHandle = nullptr →
      callsMade w (CreateSession sdk sessionName w).2 = []) ∧
    (w.globals.SessionHandle ≠ nullptr →
      (createAnswer sdk sessionName w).1 ≠ EOS_EResult.EOS_Success →
      acquired (callsMade w (CreateSession sdk sessionName w).2) = 0 ∧
      released (callsMade w (CreateSession sdk sessionName w).2) = 0) ∧
    (w.globals.SessionHandle ≠ nullptr →
      (createAnswer sdk sessionName w).1 = EOS_EResult.EOS_Success →
      bucketAnswer sdk sessionName w ≠ EOS_EResult.EOS_Success ∧
      acquired (callsMade w (CreateSession sdk sessionName w).2) = 1 ∧
      (callsMade w (CreateSession sdk sessionName w).2).filter SdkCall.isRelease =
        [SdkCall.Release (createAnswer sdk sessionName w).2]) := by
  by_cases h : w.globals.SessionHandle = nullptr
  · have hw := CreateSession_null sdk sessionName w h
    have hm : callsMade w (CreateSession sdk sessionName w).2 = [] :=
      callsMade_of_calls_eq _ _ _ (by simp [hw, World.cerr])
    simp [hm, h, acquired, released, committed]
  · by_cases hc : (createAnswer sdk sessionName w).1 = EOS_EResult.EOS_Success
    · by_cases hb : bucketAnswer sdk sessionName w = EOS_EResult.EOS_Success
      · have hw := CreateSession_accepted sdk sessionName w h hc hb
        exact absurd (hw.1.symm.trans herr) hname
      · have hw := CreateSession_bucket_failed sdk sessionName w h hc hb
        have hm := callsMade_of_calls_eq _ _ _ hw.2.2
        simp [hm, h, hc, hb, acquired, released, committed, SdkCall.isAcquire,
          SdkCall.isRelease, SdkCall.isUpdate]
    · have hw := CreateSession_rejected sdk sessionName w h hc
      have hm := callsMade_of_calls_eq _ _ _ hw.2.2
      simp [hm, h, hc, acquired, released, committed, SdkCall.isAcquire,
        SdkCall.isRelease, SdkCall.isUpdate]

/-- C1, witness: the session name "match_p1_p2" with a backend whose bucket-set call
fails. -/
theorem CreateSession_error_releases_what_it_acquired_witness :
    released (callsMade world0
        (CreateSession (sdkDouble EOS_EResult.EOS_Success EOS_EResult.EOS_InvalidParameters)
          "match_p1_p2" world0).2) = 1 ∧
    acquired (callsMade world0
        (CreateSession (sdkDouble EOS_EResult.EOS_Success EOS_EResult.EOS_InvalidParameters)
          "match_p1_p2" world0).2) = 1 := by
  have h := CreateSession_error_releases_what_it_acquired
    (sdkDouble EOS_EResult.EOS_Success EOS_EResult.EOS_InvalidParameters)
    "match_p1_p2" world0 (by decide) (by decide)
  have h1 := (h.2.2.2.2 (by decide) (by decide)).2.1
  exact ⟨h.1.trans h1, h1⟩

/-! ### Return value of `CreateSession` -/

/-- C2. For every non-empty session name, `CreateSession` returns the empty string when
the sessions interface is null, when the handle request is rejected, or when the
bucket-set call fails; in every other case it returns exactly the requested name, which
is non-empty, issues exactly one commit/update call carrying the acquired handle, and
never releases the handle. -/
theorem CreateSession_returns_name_or_error (sdk : Sdk) (sessionName : String) (w : World)
    (hname : sessionName ≠ "") :
    (w.globals.SessionHandle = nullptr → (CreateSession sdk sessionName w).1 = "") ∧
    (w.globals.SessionHandle ≠ nullptr →
      (createAnswer sdk sessionName w).1 ≠ EOS_EResult.EOS_Success →
      (CreateSession sdk sessionName w).1 = "") ∧
    (w.globals.SessionHandle ≠ nullptr →
      (createAnswer sdk sessionName w).1 = EOS_EResult.EOS_Success →
      bucketAnswer sdk sessionName w ≠ EOS_EResult.EOS_Success →
      (CreateSession sdk sessionName w).1 = "") ∧
    (w.globals.SessionHandle ≠ nullptr →
      (createAnswer sdk sessionName w).1 = EOS_EResult.EOS_Success →
      bucketAnswer sdk sessionName w = EOS_EResult.EOS_Success →
      (CreateSession sdk sessionName w).1 = sessionName ∧
      (CreateSession sdk sessionName w).1 ≠ "" ∧
      (callsMade w (CreateSession sdk sessionName w).2).filter SdkCall.isUpdate =
        [SdkCall.UpdateSession w.globals.SessionHandle
          (CreateSession.UpdateOptions sdk (createAnswer sdk sessionName w).2)
          nullptr Callback.EOS_CreateSessionCompleteCallback] ∧
      (CreateSession.UpdateOptions sdk (createAnswer sdk sessionName w).2).SessionModificationHandle
        = (createAnswer sdk sessionName w).2 ∧
      committed (callsMade w (CreateSession sdk sessionName w).2) = 1 ∧
      released (callsMade w (CreateSession sdk sessionName w).2) = 0) := by
  refine ⟨fun h => ?_, fun h hc => ?_, fun h hc hb => ?_, fun h hc hb => ?_⟩
  · rw [CreateSession_null sdk sessionName w h]
  · exact (CreateSession_rejected sdk sessionName w h hc).1
  · exact (CreateSession_bucket_failed sdk sessionName w h hc hb).1
  · have hw := CreateSession_accepted sdk sessionName w h hc hb
    have hm := callsMade_of_calls_eq _ _ _ hw.2.2
    refine ⟨hw.1, by rw [hw.1]; exact hname, ?_, rfl, ?_, ?_⟩ <;>
      simp [hm, committed, released, SdkCall.isAcquire, SdkCall.isRelease, SdkCall.isUpdate]

/-- C2, witness: "match_p1_p2" on a backend that accepts every call is returned
unchanged. -/
theorem CreateSession_returns_name_or_error_witness :
    (CreateSession sdkAccept "match_p1_p2" world0).1 = "match_p1_p2" :=
  ((CreateSession_returns_name_or_error sdkAccept "match_p1_p2" world0 (by decide)).2.2.2
    (by decide) (by decide) (by decide)).1

/-! ### Bucket id used by `CreateSession` -/

/-- C3, evaluation at the failing input. On a backend that accepts every call,
`CreateSession "match_p1_p2"` requests the handle with that name, bucket id
"sbmm_default_bucket" and two players, and then sets the bucket id "default_bucket" on
that handle: the bucket id set differs from the bucket id requested. -/
theorem CreateSession_sets_a_different_bucket :
    callsMade world0 (CreateSession sdkAccept "match_p1_p2" world0).2 =
      [SdkCall.CreateSessionModification 1
        (EOS_Sessions_CreateSessionModificationOptions.mk 1 "match_p1_p2"
          "sbmm_default_bucket" 2)
        EOS_EResult.EOS_Success 7,
       SdkCall.SetBucketId 7 (EOS_SessionModification_SetBucketIdOptions.mk 1 "default_bucket")
        EOS_EResult.EOS_Success,
       SdkCall.UpdateSession 1 (EOS_Sessions_UpdateSessionOptions.mk 1 7) 0
        Callback.EOS_CreateSessionCompleteCallback] ∧
    (CreateSession.BucketOptions sdkAccept).BucketId ≠
      (CreateSession.CreateOptions sdkAccept "match_p1_p2").BucketId := by
  decide

/-! ### `MatchPlayers` -/

theorem c_str_of_no_nul (s : String) (h : ∀ c ∈ s.data, c ≠ Char.ofNat 0) : c_str s = s := by
  have ht : s.data.takeWhile (fun c => c != Char.ofNat 0) = s.data := by
    rw [List.takeWhile_eq_self_iff]
    intro c hc
    simpa using h c hc
  unfold c_str
  rw [ht]

theorem CreateSession_result (sdk : Sdk) (sessionName : String) (w : World) :
    (CreateSession sdk sessionName w).1 = "" ∨
      (CreateSession sdk sessionName w).1 = sessionName := by
  by_cases h : w.globals.SessionHandle = nullptr
  · left
    rw [CreateSession_null sdk sessionName w h]
  · by_cases hc : (createAnswer sdk sessionName w).1 = EOS_EResult.EOS_Success
    · by_cases hb : bucketAnswer sdk sessionName w = EOS_EResult.EOS_Success
      · exact Or.inr (CreateSession_accepted sdk sessionName w h hc hb).1
      · exact Or.inl (CreateSession_bucket_failed sdk sessionName w h hc hb).1
    · exact Or.inl (CreateSession_rejected sdk sessionName w h hc).1

theorem extractPlayers_ok (js : JsonLib) (req : request) (body : JsonValue)
    (p1 p2 : String) (hparse : js.parse req.body = .ok body)
    (h1 : body.at_ "player1" = .ok (JsonValue.string p1))
    (h2 : body.at_ "player2" = .ok (JsonValue.string p2)) :
    extractPlayers js req = .ok (c_str p1, c_str p2) := by
  simp [extractPlayers, hparse, h1, h2, Except.bind, JsonValue.as_string]

theorem extractPlayers_malformed (js : JsonLib) (req : request)
    (h : malformed js req = true) : ∃ e, extractPlayers js req = .error e := by
  unfold malformed at h
  cases hp : js.parse req.body with
  | error e => exact ⟨e, by simp [extractPlayers, hp]⟩
  | ok body =>
    rw [hp] at h
    simp only [hasStringField, Bool.or_eq_true, Bool.not_eq_true'] at h
    cases ha1 : body.at_ "player1" with
    | error e => exact ⟨js.what e, by simp [extractPlayers, hp, ha1, Except.bind]⟩
    | ok v1 =>
      cases v1 with
      | string s1 =>
        cases ha2 : body.at_ "player2" with
        | error e =>
          exact ⟨js.what e,
            by simp [extractPlayers, hp, ha1, ha2, Except.bind, JsonValue.as_string]⟩
        | ok v2 =>
          cases v2 with
          | string s2 => simp [ha1, ha2] at h
          | _ =>
            exact ⟨js.what JsonError.not_a_string,
              by simp [extractPlayers, hp, ha1, ha2, Except.bind, JsonValue.as_string]⟩
      | _ =>
        exact ⟨js.what JsonError.not_a_string,
          by simp [extractPlayers, hp, ha1, Except.bind, JsonValue.as_string]⟩

/-- C4, counterexample. The body `{"player1":"a\u0000b","player2":"c"}` parses to an
object whose `player1` is the three-character string `a`, NUL, `b`. The handler copies
it through `c_str()`, so on a backend that accepts every call it creates the session
"match_a_c" and answers 200 with that `session_id`, not with "match_" + p1 + "_" + p2;
and the world it leaves differs from that of one `CreateSession` call with the latter
name. -/
theorem MatchPlayers_truncates_player_id_at_nul :
    jsWithNul.parse (request.mk bodyWithNul).body =
      .ok (JsonValue.object
        [("player1", JsonValue.string idWithNul), ("player2", JsonValue.string "c")]) ∧
    (JsonValue.object
        [("player1", JsonValue.string idWithNul), ("player2", JsonValue.string "c")]).at_
      "player1" = .ok (JsonValue.string idWithNul) ∧
    (JsonValue.object
        [("player1", JsonValue.string idWithNul), ("player2", JsonValue.string "c")]).at_
      "player2" = .ok (JsonValue.string "c") ∧
    (MatchPlayers sdkAccept jsWithNul (request.mk bodyWithNul) world0).1 =
      response.mk 200
        (jsWithNul.serialize (JsonValue.object
          [("session_id", JsonValue.string "match_a_c"),
           ("status", JsonValue.string "created")])) ∧
    (MatchPlayers sdkAccept jsWithNul (request.mk bodyWithNul) world0).1 ≠
      response.mk 200
        (jsWithNul.serialize (JsonValue.object
          [("session_id", JsonValue.string ("match_" ++ idWithNul ++ "_" ++ "c")),
           ("status", JsonValue.string "created")])) ∧
    (CreateSession sdkAccept ("match_" ++ idWithNul ++ "_" ++ "c") world0).1 ≠ "" ∧
    (MatchPlayers sdkAccept jsWithNul (request.mk bodyWithNul) world0).2 ≠
      (CreateSession sdkAccept ("match_" ++ idWithNul ++ "_" ++ "c") world0).2 :=
  ⟨rfl, rfl, rfl, by decide, by decide, by decide, by decide⟩

/-- C4, amended. For every request body that parses as a JSON object whose fields
`player1` and `player2` are strings p1 and p2, `MatchPlayers` calls `CreateSession`
exactly once, with the name "match_" + c(p1) + "_" + c(p2) where c(s) is s up to its
first NUL character; it responds 200 with `session_id` equal to that name and status
"created" if `CreateSession` succeeds, responds 500 if it returns the error value, and
never responds 400. For p1 and p2 without a NUL character the name is
"match_" + p1 + "_" + p2. -/
theorem MatchPlayers_well_formed (sdk : Sdk) (js : JsonLib) (req : request) (w : World)
    (body : JsonValue) (p1 p2 : String)
    (hparse : js.parse req.body = .ok body)
    (h1 : body.at_ "player1" = .ok (JsonValue.string p1))
    (h2 : body.at_ "player2" = .ok (JsonValue.string p2)) :
    (MatchPlayers sdk js req w).2 =
      (CreateSession sdk (sessionNameOf (c_str p1) (c_str p2)) w).2 ∧
    ((CreateSession sdk (sessionNameOf (c_str p1) (c_str p2)) w).1 ≠ "" →
      (MatchPlayers sdk js req w).1 =
        response.mk 200
          (js.serialize (JsonValue.object
            [("session_id", JsonValue.string (sessionNameOf (c_str p1) (c_str p2))),
             ("status", JsonValue.string "created")]))) ∧
    ((CreateSession sdk (sessionNameOf (c_str p1) (c_str p2)) w).1 = "" →
      (MatchPlayers sdk js req w).1 = response.mk 500 "Failed to create session") ∧
    (MatchPlayers sdk js req w).1.code ≠ 400 ∧
    ((∀ c ∈ p1.data, c ≠ Char.ofNat 0) → (∀ c ∈ p2.data, c ≠ Char.ofNat 0) →
      sessionNameOf (c_str p1) (c_str p2) = "match_" ++ p1 ++ "_" ++ p2) := by
  have he := extractPlayers_ok js req body p1 p2 hparse h1 h2
  refine ⟨?_, ?_, ?_, ?_, ?_⟩
  · simp only [MatchPlayers, he]
    split_ifs <;> rfl
  · intro hs
    rcases CreateSession_result sdk (sessionNameOf (c_str p1) (c_str p2)) w with hr | hr
    · exact absurd hr hs
    · simp only [MatchPlayers, he]
      rw [if_pos hs, hr]
  · intro hs
    simp only [MatchPlayers, he]
    rw [if_neg (by simpa using hs)]
  · simp only [MatchPlayers, he]
    split_ifs <;> simp
  · intro hn1 hn2
    rw [c_str_of_no_nul p1 hn1, c_str_of_no_nul p2 hn2]
    rfl

/-- C4, witness: the body `{"player1":"p1","player2":"p2"}` on a backend that accepts
every call is answered 200 with `session_id` "match_p1_p2". -/
theorem MatchPlayers_well_formed_witness :
    (MatchPlayers sdkAccept jsTwoPlayers (request.mk bodyTwoPlayers) world0).1 =
      response.mk 200
        (jsTwoPlayers.serialize (JsonValue.object
          [("session_id", JsonValue.string (sessionNameOf (c_str "p1") (c_str "p2"))),
           ("status", JsonValue.string "created")])) ∧
    sessionNameOf (c_str "p1") (c_str "p2") = "match_" ++ "p1" ++ "_" ++ "p2" :=
  have h := MatchPlayers_well_formed sdkAccept jsTwoPlayers (request.mk bodyTwoPlayers) world0
    (JsonValue.object [("player1", JsonValue.string "p1"), ("player2", JsonValue.string "p2")])
    "p1" "p2" rfl rfl rfl
  ⟨h.2.1 (by decide), h.2.2.2.2 (by decide) (by decide)⟩

/-- C5. For every malformed request body (one that does not parse as JSON, or lacks the
field `player1` or `player2`, or has a value that is not a string for either),
`MatchPlayers` responds 400 and makes no backend call at all; the globals are untouched. -/
theorem MatchPlayers_malformed (sdk : Sdk) (js : JsonLib) (req : request) (w : World)
    (h : malformed js req = true) :
    (MatchPlayers sdk js req w).1 = response.mk 400 "Invalid request format" ∧
    (MatchPlayers sdk js req w).1.code = 400 ∧
    callsMade w (MatchPlayers sdk js req w).2 = [] ∧
    (MatchPlayers sdk js req w).2.calls = w.calls ∧
    (MatchPlayers sdk js req w).2.globals = w.globals := by
  obtain ⟨e, he⟩ := extractPlayers_malformed js req h
  simp [MatchPlayers, he, callsMade, World.cerr]

/-- C5, witness: the body `{"player1":"p1"}`, which lacks `player2`. -/
theorem MatchPlayers_malformed_witness :
    (MatchPlayers sdkAccept jsMissingField (request.mk bodyMissingField) world0).1.code = 400 ∧
    callsMade world0
      (MatchPlayers sdkAccept jsMissingField (request.mk bodyMissingField) world0).2 = [] :=
  have h := MatchPlayers_malformed sdkAccept jsMissingField (request.mk bodyMissingField)
    world0 (by decide)
  ⟨h.2.1, h.2.2.1⟩

/-! ### DELETE /session/{id} -/

theorem DestroySessionCallback_globals (Data : Option CallbackInfo) (w : World) :
    (DestroySessionCallback Data w).globals = w.globals ∧
    (DestroySessionCallback Data w).calls = w.calls := by
  unfold DestroySessionCallback
  cases Data with
  | none => simp [World.cout]
  | some d => by_cases h : d.ResultCode = EOS_EResult.EOS_Success <;> simp [h, World.cout]

theorem DeleteSessionRoute_null (sdk : Sdk) (js : JsonLib) (sessionId : String) (w : World)
    (h : w.globals.SessionHandle = nullptr) :
    DeleteSessionRoute sdk js sessionId w =
      (response.mk 500 "Failed to destroy session",
        (w.cout ("🛑 Destroying session: " ++ sessionId)).cerr
          "❌ ERROR: SessionHandle is NULL! EOS SDK may not be initialized.") := by
  simp [DeleteSessionRoute, DestroySession, World.cout, World.cerr, h]

theorem DeleteSessionRoute_live (sdk : Sdk) (js : JsonLib) (sessionId : String) (w : World)
    (h : w.globals.SessionHandle ≠ nullptr) :
    DeleteSessionRoute sdk js sessionId w =
      (response.mk 200
          (js.serialize (JsonValue.object
            [("session_id", JsonValue.string sessionId),
             ("status", JsonValue.string "destroyed")])),
        (((w.cout ("🛑 Destroying session: " ++ sessionId)).call
          (SdkCall.DestroySession w.globals.SessionHandle
            (EOS_Sessions_DestroySessionOptions.mk sdk.EOS_SESSIONS_DESTROYSESSION_API_LATEST
              (c_str sessionId))
            nullptr Callback.DestroySessionCallback)).cout
          ("🛑 Destroy session request sent for: " ++ sessionId))) := by
  simp [DeleteSessionRoute, DestroySession, World.cout, World.call, h]

theorem DeleteSessionRoute_globals (sdk : Sdk) (js : JsonLib) (sessionId : String)
    (w : World) : (DeleteSessionRoute sdk js sessionId w).2.globals = w.globals := by
  by_cases h : w.globals.SessionHandle = nullptr
  · rw [DeleteSessionRoute_null sdk js sessionId w h]
    rfl
  · rw [DeleteSessionRoute_live sdk js sessionId w h]
    rfl

theorem runDestroy_globals (sdk : Sdk) (js : JsonLib) (sessionId : String)
    (steps : List DestroyStep) (w : World) :
    (runDestroy sdk js sessionId steps w).globals = w.globals := by
  induction steps generalizing w with
  | nil => rfl
  | cons step rest ih =>
    cases step with
    | request =>
      simp only [runDestroy]
      rw [ih, DeleteSessionRoute_globals]
    | completion Data =>
      simp only [runDestroy]
      rw [ih, (DestroySessionCallback_globals Data w).1]

theorem DeleteSessionRoute_response_of_globals (sdk : Sdk) (js : JsonLib)
    (sessionId : String) (w w1 : World) (h : w1.globals = w.globals) :
    (DeleteSessionRoute sdk js sessionId w1).1 = (DeleteSessionRoute sdk js sessionId w).1 := by
  by_cases hn : w.globals.SessionHandle = nullptr
  · rw [DeleteSessionRoute_null sdk js sessionId w hn,
      DeleteSessionRoute_null sdk js sessionId w1 (by rw [h]; exact hn)]
  · rw [DeleteSessionRoute_live sdk js sessionId w hn,
      DeleteSessionRoute_live sdk js sessionId w1 (by rw [h]; exact hn)]

/-- C6, counterexample. For the id `a`, NUL, `b` the handler of DELETE /session/{id}
issues its one destroy call for the session name "a", the C string of the id, not for
the id, while it answers 200 with `session_id` equal to the full id. -/
theorem DeleteSessionRoute_destroy_call_cut_at_nul :
    callsMade world0 (DeleteSessionRoute sdkAccept jsTwoPlayers idWithNul world0).2 =
      [SdkCall.DestroySession 1 (EOS_Sessions_DestroySessionOptions.mk 1 "a") 0
        Callback.DestroySessionCallback] ∧
    callsMade world0 (DeleteSessionRoute sdkAccept jsTwoPlayers idWithNul world0).2 ≠
      [SdkCall.DestroySession 1 (EOS_Sessions_DestroySessionOptions.mk 1 idWithNul) 0
        Callback.DestroySessionCallback] ∧
    (DeleteSessionRoute sdkAccept jsTwoPlayers idWithNul world0).1 =
      response.mk 200
        (jsTwoPlayers.serialize (JsonValue.object
          [("session_id", JsonValue.string idWithNul),
           ("status", JsonValue.string "destroyed")])) := by
  decide

/-- C6, amended. For every session id, whatever was created or destroyed before, the
handler of DELETE /session/{id} responds 200 with `session_id` equal to the id and
status "destroyed" after issuing exactly one asynchronous destroy call, whose session
name is the id up to its first NUL character (the id itself when it has no NUL
character), when the sessions interface is not null, and responds 500 without any
backend call when it is null. After any sequence of further DELETE requests for the id
and of destroy completions with any result code, the same request gets the same
response. -/
theorem DeleteSessionRoute_accepts_and_repeats (sdk : Sdk) (js : JsonLib)
    (sessionId : String) (w : World) (steps : List DestroyStep) :
    (DeleteSessionRoute sdk js sessionId w).1 =
      (if w.globals.SessionHandle = nullptr then
        response.mk 500 "Failed to destroy session"
      else
        response.mk 200
          (js.serialize (JsonValue.object
            [("session_id", JsonValue.string sessionId),
             ("status", JsonValue.string "destroyed")]))) ∧
    callsMade w (DeleteSessionRoute sdk js sessionId w).2 =
      (if w.globals.SessionHandle = nullptr then []
      else
        [SdkCall.DestroySession w.globals.SessionHandle
          (EOS_Sessions_DestroySessionOptions.mk sdk.EOS_SESSIONS_DESTROYSESSION_API_LATEST
            (c_str sessionId))
          nullptr Callback.DestroySessionCallback]) ∧
    ((∀ c ∈ sessionId.data, c ≠ Char.ofNat 0) → c_str sessionId = sessionId) ∧
    (DeleteSessionRoute sdk js sessionId (runDestroy sdk js sessionId steps w)).1 =
      (DeleteSessionRoute sdk js sessionId w).1 := by
  refine ⟨?_, ?_, c_str_of_no_nul sessionId, ?_⟩
  · by_cases h : w.globals.SessionHandle = nullptr
    · rw [DeleteSessionRoute_null sdk js sessionId w h, if_pos h]
    · rw [DeleteSessionRoute_live sdk js sessionId w h, if_neg h]
  · by_cases h : w.globals.SessionHandle = nullptr
    · rw [DeleteSessionRoute_null sdk js sessionId w h, if_pos h]
      exact callsMade_of_calls_eq _ _ _ (by simp [World.cout, World.cerr])
    · rw [DeleteSessionRoute_live sdk js sessionId w h, if_neg h]
      exact callsMade_of_calls_eq _ _ _ (by simp [World.cout, World.call])
  · exact DeleteSessionRoute_response_of_globals sdk js sessionId w _
      (runDestroy_globals sdk js sessionId steps w)

/-- C6, witness: the never-created id "ghost", deleted again after a first DELETE and a
destroy completion reporting not-found. -/
theorem DeleteSessionRoute_accepts_and_repeats_witness :
    c_str "ghost" = "ghost" ∧
    (DeleteSessionRoute sdkAccept jsTwoPlayers "ghost"
      (runDestroy sdkAccept jsTwoPlayers "ghost"
        [DestroyStep.request,
         DestroyStep.completion (some (CallbackInfo.mk EOS_EResult.EOS_NotFound))]
        world0)).1 =
      (DeleteSessionRoute sdkAccept jsTwoPlayers "ghost" world0).1 :=
  have h := DeleteSessionRoute_accepts_and_repeats sdkAccept jsTwoPlayers "ghost" world0
    [DestroyStep.request,
     DestroyStep.completion (some (CallbackInfo.mk EOS_EResult.EOS_NotFound))]
  ⟨h.2.2.1 (by decide), h.2.2.2⟩

/-! ### POST /session/start/{id} -/

theorem StartSessionCallback_globals (sdk : Sdk) (Data : Option CallbackInfo) (w : World) :
    (StartSessionCallback sdk Data w).globals = w.globals ∧
    (StartSessionCallback sdk Data w).calls = w.calls := by
  unfold StartSessionCallback
  cases Data with
  | none => simp [World.cerr]
  | some d =>
    obtain ⟨code⟩ := d
    cases code <;> simp [World.cout, World.cerr]

/-- C7, counterexample. For the id `a`, NUL, `b` the handler of POST /session/start/{id}
issues its one start call for the session name "a", the C string of the id, not for the
id, while it answers 200 with `session_id` equal to the full id. -/
theorem StartSessionRoute_start_call_cut_at_nul :
    callsMade world0 (StartSessionRoute sdkAccept jsTwoPlayers idWithNul world0).2 =
      [SdkCall.StartSession 1 (EOS_Sessions_StartSessionOptions.mk 1 "a") 0
        Callback.StartSessionCallback] ∧
    callsMade world0 (StartSessionRoute sdkAccept jsTwoPlayers idWithNul world0).2 ≠
      [SdkCall.StartSession 1 (EOS_Sessions_StartSessionOptions.mk 1 idWithNul) 0
        Callback.StartSessionCallback] ∧
    (StartSessionRoute sdkAccept jsTwoPlayers idWithNul world0).1 =
      response.mk 200
        (jsTwoPlayers.serialize (JsonValue.object
          [("session_id", JsonValue.string idWithNul),
           ("status", JsonValue.string "started")])) := by
  decide

/-- C7, amended. For every session id, also one that was never created, the handler of
POST /session/start/{id} responds 200 with `session_id` equal to the id and status
"started" after issuing exactly one asynchronous start call, whose session name is the
id up to its first NUL character (the id itself when it has no NUL character), when the
sessions interface is not null, and responds 500 without any backend call when it is
null. A start completion reporting `EOS_NotFound`, delivered in any world, changes no
global and makes no backend call; the program has no session record to create. -/
theorem StartSessionRoute_accepts (sdk : Sdk) (js : JsonLib) (sessionId : String)
    (w w1 : World) :
    (StartSessionRoute sdk js sessionId w).1 =
      (if w.globals.SessionHandle = nullptr then
        response.mk 500 "SessionHandle is NULL"
      else
        response.mk 200
          (js.serialize (JsonValue.object
            [("session_id", JsonValue.string sessionId),
             ("status", JsonValue.string "started")]))) ∧
    callsMade w (StartSessionRoute sdk js sessionId w).2 =
      (if w.globals.SessionHandle = nullptr then []
      else
        [SdkCall.StartSession w.globals.SessionHandle
          (EOS_Sessions_StartSessionOptions.mk sdk.EOS_SESSIONS_STARTSESSION_API_LATEST
            (c_str sessionId))
          nullptr Callback.StartSessionCallback]) ∧
    (StartSessionRoute sdk js sessionId w).2.globals = w.globals ∧
    ((∀ c ∈ sessionId.data, c ≠ Char.ofNat 0) → c_str sessionId = sessionId) ∧
    (StartSessionCallback sdk (some (CallbackInfo.mk EOS_EResult.EOS_NotFound)) w1).globals =
      w1.globals ∧
    (StartSessionCallback sdk (some (CallbackInfo.mk EOS_EResult.EOS_NotFound)) w1).calls =
      w1.calls := by
  refine ⟨?_, ?_, ?_, c_str_of_no_nul sessionId,
    (StartSessionCallback_globals sdk _ w1).1, (StartSessionCallback_globals sdk _ w1).2⟩
  · by_cases h : w.globals.SessionHandle = nullptr <;>
      simp [StartSessionRoute, StartEOSSession, World.cout, World.cerr, World.call, h]
  · by_cases h : w.globals.SessionHandle = nullptr <;>
      simp [StartSessionRoute, StartEOSSession, World.cout, World.cerr, World.call, h,
        callsMade]
  · by_cases h : w.globals.SessionHandle = nullptr <;>
      simp [StartSessionRoute, StartEOSSession, World.cout, World.cerr, World.call, h]

/-- C7, witness: the never-created id "ghost" is accepted with one start call. -/
theorem StartSessionRoute_accepts_witness :
    c_str "ghost" = "ghost" ∧
    callsMade world0 (StartSessionRoute sdkAccept jsTwoPlayers "ghost" world0).2 =
      [SdkCall.StartSession 1 (EOS_Sessions_StartSessionOptions.mk 1 "ghost") 0
        Callback.StartSessionCallback] :=
  have h := StartSessionRoute_accepts sdkAccept jsTwoPlayers "ghost" world0 world0
  ⟨h.2.2.2.1 (by decide), h.2.1.trans (by decide)⟩

/-! ### Completion callbacks -/

theorem EOS_CreateSessionCompleteCallback_effect (sdk : Sdk) (code : EOS_EResult)
    (w : World) :
    (EOS_CreateSessionCompleteCallback sdk (some (CallbackInfo.mk code)) w).globals =
      w.globals ∧
    (EOS_CreateSessionCompleteCallback sdk (some (CallbackInfo.mk code)) w).calls =
      w.calls ∧
    (EOS_CreateSessionCompleteCallback sdk (some (CallbackInfo.mk code)) w).out = w.out ++
      [LogLine.mk Stream.cout "🔔 EOS_CreateSessionCompleteCallback has been triggered!",
       LogLine.mk Stream.cout ("📡 Callback Result: " ++ sdk.EOS_EResult_ToString code),
       if code = EOS_EResult.EOS_Success then
         LogLine.mk Stream.cout "✅ Session successfully created/updated!"
       else if code = EOS_EResult.EOS_Sessions_OutOfSync then
         LogLine.mk Stream.cout "⚠️ WARNING: Session is out of sync and will be updated later!"
       else
         LogLine.mk Stream.cout ("❌ ERROR: Session creation/update failed! Error: "
           ++ sdk.EOS_EResult_ToString code)] := by
  unfold EOS_CreateSessionCompleteCallback
  by_cases h1 : code = EOS_EResult.EOS_Success
  · simp [h1, World.cout]
  · by_cases h2 : code = EOS_EResult.EOS_Sessions_OutOfSync <;> simp [h1, h2, World.cout]

theorem StartSessionCallback_out_prefix (sdk : Sdk) (code : EOS_EResult) (w : World) :
    ∃ rest, (StartSessionCallback sdk (some (CallbackInfo.mk code)) w).out = w.out ++
      (LogLine.mk Stream.cout "🔔 StartSession Callback Triggered!" ::
       LogLine.mk Stream.cout ("📡 Callback Result: " ++ sdk.EOS_EResult_ToString code) ::
       rest) := by
  unfold StartSessionCallback
  cases code with
  | EOS_Success =>
    exact ⟨[LogLine.mk Stream.cout "✅ Session successfully started!"], by simp [World.cout]⟩
  | EOS_NotFound => exact ⟨[], by simp [World.cout]⟩
  | EOS_Sessions_OutOfSync =>
    exact ⟨[LogLine.mk Stream.cerr
      "⚠️ WARNING: Session is out of sync. Will update on next backend connection!"],
      by simp [World.cout, World.cerr]⟩
  | EOS_InvalidParameters =>
    exact ⟨[LogLine.mk Stream.cerr "❌ ERROR: Invalid session parameters!"],
      by simp [World.cout, World.cerr]⟩
  | EOS_Other n =>
    exact ⟨[LogLine.mk Stream.cerr ("❌ ERROR: Failed to start session! Error: "
      ++ sdk.EOS_EResult_ToString (EOS_EResult.EOS_Other n))],
      by simp [World.cout, World.cerr]⟩

/-- C8, counterexample. After `CreateSession "match_p1_p2"` was accepted, no query of
the program state can answer `Active` once the completion delivers `EOS_Success` and
`Failed code` once it delivers another code: the callback leaves every global as it
was, so both deliveries end in the same program state. -/
theorem create_callback_outcome_is_not_queryable :
    (CreateSession sdkAccept "match_p1_p2" world0).1 = "match_p1_p2" ∧
    ¬ ∃ query : Globals → String → LifecycleState,
      query (EOS_CreateSessionCompleteCallback sdkAccept
          (some (CallbackInfo.mk EOS_EResult.EOS_Success))
          (CreateSession sdkAccept "match_p1_p2" world0).2).globals "match_p1_p2"
        = LifecycleState.Active ∧
      query (EOS_CreateSessionCompleteCallback sdkAccept
          (some (CallbackInfo.mk (EOS_EResult.EOS_Other 1)))
          (CreateSession sdkAccept "match_p1_p2" world0).2).globals "match_p1_p2"
        = LifecycleState.Failed (EOS_EResult.EOS_Other 1) := by
  refine ⟨by decide, ?_⟩
  rintro ⟨query, h1, h2⟩
  rw [(EOS_CreateSessionCompleteCallback_effect sdkAccept _ _).1] at h1 h2
  rw [h1] at h2
  exact absurd h2 (by decide)

/-- C8, amended. Delivery of the create/update completion callback records nothing: for
every result code and every world it leaves the globals unchanged and makes no backend
call (the program keeps no session record, lifecycle state or last result). It only
writes three lines: that the callback was triggered, the result code, and then the
success message for `EOS_Success`, the out-of-sync warning for
`EOS_Sessions_OutOfSync`, or the failure message with the code for any other code. -/
theorem create_callback_only_logs (sdk : Sdk) (code : EOS_EResult) (w : World) :
    (EOS_CreateSessionCompleteCallback sdk (some (CallbackInfo.mk code)) w).globals =
      w.globals ∧
    callsMade w (EOS_CreateSessionCompleteCallback sdk (some (CallbackInfo.mk code)) w) = [] ∧
    linesWritten w (EOS_CreateSessionCompleteCallback sdk (some (CallbackInfo.mk code)) w) =
      [LogLine.mk Stream.cout "🔔 EOS_CreateSessionCompleteCallback has been triggered!",
       LogLine.mk Stream.cout ("📡 Callback Result: " ++ sdk.EOS_EResult_ToString code),
       if code = EOS_EResult.EOS_Success then
         LogLine.mk Stream.cout "✅ Session successfully created/updated!"
       else if code = EOS_EResult.EOS_Sessions_OutOfSync then
         LogLine.mk Stream.cout "⚠️ WARNING: Session is out of sync and will be updated later!"
       else
         LogLine.mk Stream.cout ("❌ ERROR: Session creation/update failed! Error: "
           ++ sdk.EOS_EResult_ToString code)] := by
  have h := EOS_CreateSessionCompleteCallback_effect sdk code w
  exact ⟨h.1, callsMade_of_calls_eq _ _ _ (by rw [h.2.1]; simp),
    linesWritten_of_out_eq _ _ _ h.2.2⟩

theorem append_cons_inj_of_not_mem {α : Type} (a : α) :
    ∀ (l1 l2 r1 r2 : List α), a ∉ l1 → a ∉ l2 → l1 ++ a :: r1 = l2 ++ a :: r2 →
      l1 = l2 ∧ r1 = r2
  | [], [], _, _, _, _, h => by simpa using h
  | [], b :: l2, _, _, _, h2, h => by
    simp only [List.nil_append, List.cons_append, List.cons.injEq] at h
    exact absurd (List.mem_cons_self b l2) (h.1 ▸ h2)
  | b :: l1, [], _, _, h1, _, h => by
    simp only [List.nil_append, List.cons_append, List.cons.injEq] at h
    exact absurd (List.mem_cons_self b l1) (h.1 ▸ h1)
  | b :: l1, c :: l2, r1, r2, h1, h2, h => by
    simp only [List.cons_append, List.cons.injEq] at h
    have ih := append_cons_inj_of_not_mem a l1 l2 r1 r2
      (fun hm => h1 (List.mem_cons_of_mem _ hm)) (fun hm => h2 (List.mem_cons_of_mem _ hm)) h.2
    exact ⟨by rw [h.1, ih.1], ih.2⟩

/-- C10. The session name "match_" + p1 + "_" + p2 is injective on player pairs whose
first identifier contains no underscore: equal names built from such pairs come from
equal first and equal second identifiers. -/
theorem sessionNameOf_injective (p1 p2 q1 q2 : String)
    (hp : '_' ∉ p1.data) (hq : '_' ∉ q1.data)
    (h : sessionNameOf p1 p2 = sessionNameOf q1 q2) : p1 = q1 ∧ p2 = q2 := by
  have hd := congrArg String.data h
  simp only [sessionNameOf, String.data_append, List.append_assoc] at hd
  have hd1 := List.append_cancel_left hd
  have hi := append_cons_inj_of_not_mem '_' p1.data q1.data p2.data q2.data hp hq
    (by simpa using hd1)
  exact ⟨String.ext hi.1, String.ext hi.2⟩

/-- C10, witness: the pairs ("p1", "p2") and ("p1", "p2"). -/
theorem sessionNameOf_injective_witness :
    sessionNameOf "p1" "p2" = "match_p1_p2" ∧ ("p1" = "p1" ∧ "p2" = "p2") :=
  ⟨by decide, sessionNameOf_injective "p1" "p2" "p1" "p2" (by decide) (by decide) rfl⟩

end Eos
